import Mathlib

/-!
Verification of the exoplanet habitability scoring function
(`src/habitability_calculator.py`, `calculate_habitability_score`).

The input record is a Python dict read with `dict.get(key, default)`;
we model it as a structure of optional fields, one per documented key.
All numeric values in the source are floats whose arithmetic is exact
(small integers and halves/tenths), so we embed them as rationals.
-/

/-- The input record: a mapping with six optional named fields,
read with lookup-with-default semantics. -/
structure PlanetData where
  stellar_type : Option String := none
  equilibrium_temperature : Option ℚ := none
  radius : Option ℚ := none
  mass : Option ℚ := none
  orbital_period : Option ℚ := none
  stellar_luminosity : Option ℚ := none

/-- Shallow embedding of `calculate_habitability_score` from
`src/habitability_calculator.py`, line by line: start at 50, three
penalty checks (temperature 20, radius 15, mass 10), the flare-star
early return of 0.0, the luminosity penalty 5, and the final clamp. -/
def calculate_habitability_score (planet_data : PlanetData) : ℚ :=
  let score : ℚ := 50.0
  let temp := planet_data.equilibrium_temperature.getD 288.0
  let score := if temp < 200 ∨ temp > 400 then score - 20 else score
  let radius := planet_data.radius.getD 1.0
  let score := if radius < 0.5 ∨ radius > 2.5 then score - 15 else score
  let mass := planet_data.mass.getD 1.0
  let score := if mass < 0.1 ∨ mass > 10 then score - 10 else score
  let stellar_type := planet_data.stellar_type.getD "G"
  if stellar_type = "flare" then 0.0
  else
    let luminosity := planet_data.stellar_luminosity.getD 1.0
    let score := if luminosity < 0.1 ∨ luminosity > 10 then score - 5 else score
    max 0.0 (min 100.0 score)

/-- The same function with the final clamping step
`score = max(0.0, min(100.0, score))` removed, for the refinement
claim that the clamp is a no-op. -/
def calculate_habitability_score_noclamp (planet_data : PlanetData) : ℚ :=
  let score : ℚ := 50.0
  let temp := planet_data.equilibrium_temperature.getD 288.0
  let score := if temp < 200 ∨ temp > 400 then score - 20 else score
  let radius := planet_data.radius.getD 1.0
  let score := if radius < 0.5 ∨ radius > 2.5 then score - 15 else score
  let mass := planet_data.mass.getD 1.0
  let score := if mass < 0.1 ∨ mass > 10 then score - 10 else score
  let stellar_type := planet_data.stellar_type.getD "G"
  if stellar_type = "flare" then 0.0
  else
    let luminosity := planet_data.stellar_luminosity.getD 1.0
    let score := if luminosity < 0.1 ∨ luminosity > 10 then score - 5 else score
    score

/-- Fallible embedding of the same source body: Python code may raise, so
we give the function an `Except` result type; every `dict.get` call in the
source carries a default and is total, and the body contains no raising
operation, so every path ends in `Except.ok`. Totality of the source is
the statement that this embedding never produces `Except.error`. -/
def calculate_habitability_scoreE (planet_data : PlanetData) : Except String ℚ :=
  let score : ℚ := 50.0
  let temp := planet_data.equilibrium_temperature.getD 288.0
  let score := if temp < 200 ∨ temp > 400 then score - 20 else score
  let radius := planet_data.radius.getD 1.0
  let score := if radius < 0.5 ∨ radius > 2.5 then score - 15 else score
  let mass := planet_data.mass.getD 1.0
  let score := if mass < 0.1 ∨ mass > 10 then score - 10 else score
  let stellar_type := planet_data.stellar_type.getD "G"
  if stellar_type = "flare" then Except.ok 0.0
  else
    let luminosity := planet_data.stellar_luminosity.getD 1.0
    let score := if luminosity < 0.1 ∨ luminosity > 10 then score - 5 else score
    Except.ok (max 0.0 (min 100.0 score))

/-- Spec-side temperature penalty, following the claim's words:
20 if temp < 200 or temp > 400 else 0, temp defaulting to 288.0. -/
def spec_p_temp (record : PlanetData) : ℚ :=
  if record.equilibrium_temperature.getD 288.0 < 200 ∨
      record.equilibrium_temperature.getD 288.0 > 400 then 20 else 0

/-- Spec-side radius penalty: 15 if radius < 0.5 or radius > 2.5 else 0,
radius defaulting to 1.0. -/
def spec_p_radius (record : PlanetData) : ℚ :=
  if record.radius.getD 1.0 < 0.5 ∨ record.radius.getD 1.0 > 2.5 then 15 else 0

/-- Spec-side mass penalty: 10 if mass < 0.1 or mass > 10 else 0,
mass defaulting to 1.0. -/
def spec_p_mass (record : PlanetData) : ℚ :=
  if record.mass.getD 1.0 < 0.1 ∨ record.mass.getD 1.0 > 10 then 10 else 0

/-- Spec-side luminosity penalty: 5 if luminosity < 0.1 or
luminosity > 10 else 0, luminosity defaulting to 1.0. -/
def spec_p_lum (record : PlanetData) : ℚ :=
  if record.stellar_luminosity.getD 1.0 < 0.1 ∨
      record.stellar_luminosity.getD 1.0 > 10 then 5 else 0

/-- C2: for every input record, the returned score lies in the closed
interval [0.0, 100.0]. -/
theorem score_in_range (planet_data : PlanetData) :
    0 ≤ calculate_habitability_score planet_data ∧
      calculate_habitability_score planet_data ≤ 100 := by
  simp only [calculate_habitability_score]
  split_ifs <;> norm_num [max_def, min_def]

/-- C6: the empty record (all six fields absent, so every field takes its
default: stellar_type "G", temperature 288.0, radius 1.0, mass 1.0,
luminosity 1.0) scores 50.0 — no penalty triggers and the flare override
does not fire. -/
theorem empty_record_scores_fifty : calculate_habitability_score {} = 50 := by
  norm_num [calculate_habitability_score]
  decide

/-- C7: the record with temperature 500, radius 5, mass 20 and
luminosity 50 accumulates all four non-flare penalties
(50 − 20 − 15 − 10 − 5 = 0) and scores exactly 0.0, landing on the clamp
floor, not below it. -/
theorem four_penalties_reach_clamp_floor :
    calculate_habitability_score
      { equilibrium_temperature := some 500, radius := some 5,
        mass := some 20, stellar_luminosity := some 50 } = 0 := by
  norm_num [calculate_habitability_score]

/-- C1: for every input record whose stellar_type is not the exact string
"flare", the score equals max(0.0, min(100.0, 50.0 − p_temp − p_radius −
p_mass − p_lum)) with the four independent additive penalties as the spec
defines them. -/
theorem nonflare_score_eq_spec_penalties (planet_data : PlanetData)
    (h : planet_data.stellar_type ≠ some "flare") :
    calculate_habitability_score planet_data =
      max 0.0 (min 100.0
        (50.0 - spec_p_temp planet_data - spec_p_radius planet_data -
          spec_p_mass planet_data - spec_p_lum planet_data)) := by
  have hG : planet_data.stellar_type.getD "G" ≠ "flare" := by
    cases hs : planet_data.stellar_type with
    | none => decide
    | some s =>
        intro hc
        rw [Option.getD_some] at hc
        exact h (hs.trans (by rw [hc]))
  simp only [calculate_habitability_score, spec_p_temp, spec_p_radius,
    spec_p_mass, spec_p_lum, if_neg hG]
  split_ifs <;> norm_num

/-- Witness for C1: the empty record is not a flare star and its score
matches the spec's penalty formula. -/
theorem nonflare_score_eq_spec_penalties_witness :
    ({} : PlanetData).stellar_type ≠ some "flare" ∧
      calculate_habitability_score {} =
        max 0.0 (min 100.0
          (50.0 - spec_p_temp {} - spec_p_radius {} -
            spec_p_mass {} - spec_p_lum {})) :=
  ⟨by decide, nonflare_score_eq_spec_penalties {} (by decide)⟩

/-- C3: every record whose stellar_type field is exactly the string
"flare" scores 0.0, regardless of temperature, radius, mass, luminosity
and orbital_period values. -/
theorem flare_star_scores_zero (planet_data : PlanetData)
    (h : planet_data.stellar_type = some "flare") :
    calculate_habitability_score planet_data = 0 := by
  simp [calculate_habitability_score, h]
  norm_num

/-- Witness for C3: a flare record carrying extreme values in every other
field still scores 0.0. -/
theorem flare_star_scores_zero_witness :
    ({ stellar_type := some "flare", equilibrium_temperature := some 500,
       radius := some 5, mass := some 20, orbital_period := some 365,
       stellar_luminosity := some 50 } : PlanetData).stellar_type
        = some "flare" ∧
      calculate_habitability_score
        { stellar_type := some "flare", equilibrium_temperature := some 500,
          radius := some 5, mass := some 20, orbital_period := some 365,
          stellar_luminosity := some 50 } = 0 :=
  ⟨rfl, flare_star_scores_zero _ rfl⟩

/-- C4: all threshold comparisons are strict — each boundary value
(temperature 200 and 400, radius 0.5 and 2.5, mass 0.1 and 10,
luminosity 0.1 and 10), set alone, incurs no penalty and scores 50.0,
while temperature 199.999 scores 30.0. -/
theorem boundary_comparisons_strict :
    calculate_habitability_score { equilibrium_temperature := some 200.0 } = 50 ∧
    calculate_habitability_score { equilibrium_temperature := some 400.0 } = 50 ∧
    calculate_habitability_score { radius := some 0.5 } = 50 ∧
    calculate_habitability_score { radius := some 2.5 } = 50 ∧
    calculate_habitability_score { mass := some 0.1 } = 50 ∧
    calculate_habitability_score { mass := some 10.0 } = 50 ∧
    calculate_habitability_score { stellar_luminosity := some 0.1 } = 50 ∧
    calculate_habitability_score { stellar_luminosity := some 10.0 } = 50 ∧
    calculate_habitability_score { equilibrium_temperature := some 199.999 } = 30 := by
  refine ⟨?_, ?_, ?_, ?_, ?_, ?_, ?_, ?_, ?_⟩ <;>
    norm_num [calculate_habitability_score] <;> decide

/-- C5: two records that agree on every field except orbital_period score
identically — orbital_period is accepted but has no effect. -/
theorem orbital_period_has_no_effect (p q : PlanetData)
    (h1 : p.stellar_type = q.stellar_type)
    (h2 : p.equilibrium_temperature = q.equilibrium_temperature)
    (h3 : p.radius = q.radius)
    (h4 : p.mass = q.mass)
    (h5 : p.stellar_luminosity = q.stellar_luminosity) :
    calculate_habitability_score p = calculate_habitability_score q := by
  obtain ⟨a, b, c, d, e, f⟩ := p
  obtain ⟨a', b', c', d', e', f'⟩ := q
  dsimp only at h1 h2 h3 h4 h5
  subst h1 h2 h3 h4 h5
  rfl

/-- Witness for C5: two records differing only in orbital_period
(10 days vs 20 days) score the same. -/
theorem orbital_period_has_no_effect_witness :
    calculate_habitability_score ({ orbital_period := some 10 } : PlanetData) =
      calculate_habitability_score ({ orbital_period := some 20 } : PlanetData) :=
  orbital_period_has_no_effect _ _ rfl rfl rfl rfl rfl

/-- C8: the scoring function is total — in the fallible embedding every
input record yields `Except.ok` of exactly the pure score; no record,
including one with out-of-range numerics such as a negative mass, is
rejected with an error. -/
theorem score_never_fails (planet_data : PlanetData) :
    calculate_habitability_scoreE planet_data =
      Except.ok (calculate_habitability_score planet_data) := by
  simp only [calculate_habitability_scoreE, calculate_habitability_score]
  split_ifs <;> rfl

/-- C9: the score is always one of the eleven multiples of 5 between 0
and 50 — 50 minus a sum of a subset of the penalties {20, 15, 10, 5},
or 0.0 for flare stars; it never exceeds the starting value 50. -/
theorem score_is_multiple_of_five (planet_data : PlanetData) :
    calculate_habitability_score planet_data ∈
      ({0, 5, 10, 15, 20, 25, 30, 35, 40, 45, 50} : Set ℚ) := by
  simp only [calculate_habitability_score, Set.mem_insert_iff,
    Set.mem_singleton_iff]
  split_ifs <;> norm_num [max_def, min_def]

/-- C10: the variant of the scoring function with the final clamping step
removed is extensionally equal to the original on every input record:
the clamp is a no-op because the pre-clamp score already lies in [0, 50]. -/
theorem clamp_is_noop (planet_data : PlanetData) :
    calculate_habitability_score_noclamp planet_data =
      calculate_habitability_score planet_data := by
  simp only [calculate_habitability_score, calculate_habitability_score_noclamp]
  split_ifs <;> norm_num [max_def, min_def]
